import Mathlib

set_option autoImplicit false

/-!
Verification of the `rafvasq/ray` training fragment.

The fragment contains `XGBoostPredictor._predict_pandas`
(`src/python/ray/train/xgboost/xgboost_predictor.py`), which is embedded
directly below, and the GPU test-suite `src/python/ray/train/tests/test_gpu.py`,
whose subject (the `ray.train` Trainer, the `train.torch` utilities and the
checkpoint/result aggregation) is not part of the fragment; those parts are
modelled from the specification and clearly marked as such.
-/

namespace RayTrain

/-! ## Embedding of `XGBoostPredictor._predict_pandas` -/

/-- A pandas column label or a positional feature index: `feature_columns` is
`Optional[Union[List[str], List[int]]]` and pandas column labels may be
strings or integers. -/
inductive ColId where
  | str (s : String)
  | int (n : Int)
deriving DecidableEq, Repr

/-- A cell of a pandas DataFrame in this fragment: either a plain scalar or
(inside the tensor extension column) a fixed-length array. -/
inductive Cell where
  | scalar (v : Int)
  | arr (vs : List Int)
deriving DecidableEq, Repr

/-- A pandas DataFrame: an ordered list of labelled columns. -/
structure DataFrame where
  cols : List (ColId × List Cell)
deriving DecidableEq, Repr

/-- The constant `ray.air.constants.TENSOR_COLUMN_NAME`. -/
def TENSOR_COLUMN_NAME : ColId := ColId.str "__value__"

/-- The column labels of the DataFrame, `data.columns.tolist()`. -/
def DataFrame.columns (d : DataFrame) : List ColId := d.cols.map Prod.fst

/-- Membership `label in data`: tests the column labels of a DataFrame. -/
def DataFrame.contains (d : DataFrame) (c : ColId) : Bool := d.columns.contains c

/-- Column selection by label, `data[label]`: a missing label raises
`KeyError`. -/
def DataFrame.getCol (d : DataFrame) (c : ColId) : Except String (List Cell) :=
  match d.cols.find? (fun p => p.fst == c) with
  | some p => Except.ok p.snd
  | none => Except.error "KeyError"

/-- Python truthiness of the optional `feature_columns` list: `None` and the
empty list are falsy. -/
def listTruthy (fc : Option (List ColId)) : Bool :=
  match fc with
  | none => false
  | some l => !l.isEmpty

/-- The check `all(isinstance(fc, str) for fc in feature_columns)`. -/
def allStrings (l : List ColId) : Bool :=
  l.all fun c =>
    match c with
    | ColId.str _ => true
    | ColId.int _ => false

/-- numpy integer fancy indexing of one row, `row[c]`: negative indices count
from the end, an out-of-range index or a string index into a numeric array
raises `IndexError`. -/
def npIndex (row : List Int) (c : ColId) : Except String Int :=
  match c with
  | ColId.str _ => Except.error "IndexError"
  | ColId.int n =>
      let i : Int := if n < 0 then n + row.length else n
      if h : 0 ≤ i ∧ i.toNat < row.length then Except.ok (row.get ⟨i.toNat, h.2⟩)
      else Except.error "IndexError"

/-- Reading a scalar cell for the `to_numpy()` array fed to `xgboost.DMatrix`:
an array cell in a scalar column yields an object array, which `DMatrix`
rejects. -/
def cellScalar : Cell → Except String Int
  | Cell.scalar v => Except.ok v
  | Cell.arr _ => Except.error "TypeError"

/-- Reading a cell of the tensor extension column, whose `to_numpy()` is the
stacked 2-D array: every cell must be an array. -/
def cellTensor : Cell → Except String (List Int)
  | Cell.arr vs => Except.ok vs
  | Cell.scalar _ => Except.error "ValueError"

/-- Conversion `DataFrame.to_numpy()` for scalar columns: the row-major matrix
of the given columns. -/
def colsToMatrix (cols : List (List Cell)) : Except String (List (List Int)) := do
  let vals ← cols.mapM (fun col => col.mapM cellScalar)
  return vals.transpose

/-- Embedding of lines 113-130 of `_predict_pandas`: from the input DataFrame
and `feature_columns`, compute the numpy array handed to `xgboost.DMatrix`
together with the value of the local variable `feature_names`. -/
def featuresToNumpy (data : DataFrame) (feature_columns : Option (List ColId)) :
    Except String (List (List Int) × Option (List ColId)) :=
  if data.contains TENSOR_COLUMN_NAME then do
    let col ← data.getCol TENSOR_COLUMN_NAME
    let rows ← col.mapM cellTensor
    if listTruthy feature_columns then do
      let rows ← rows.mapM (fun row => (feature_columns.getD []).mapM (npIndex row))
      return (rows, none)
    else
      return (rows, none)
  else if listTruthy feature_columns then do
    let fc := feature_columns.getD []
    let selected ← fc.mapM data.getCol
    let m ← colsToMatrix selected
    return (m, if allStrings fc then some fc else none)
  else do
    let fc := data.columns
    let m ← colsToMatrix (data.cols.map Prod.snd)
    return (m, if allStrings fc then some fc else none)

/-- Line 132, `if feature_names:` with Python truthiness: the
`feature_names` kwarg reaches `xgboost.DMatrix` only when the local variable
holds a non-empty list. -/
def truthyNames : Option (List ColId) → Option (List ColId)
  | some l => if l.isEmpty then none else some l
  | none => none

/-- The prediction of the booster, abstracted as a numpy ndarray: a 1-D
prediction appears to `pd.DataFrame` as a single column, a 2-D `(n, k)`
prediction as `k` columns. -/
structure NDArray where
  ncols : Nat
  rows : List (List Int)
deriving DecidableEq, Repr

/-- Lines 137-141 of `_predict_pandas`: the column labels assigned to the
returned DataFrame. -/
def predictionColumns (n : Nat) : List String :=
  if n = 1 then ["predictions"]
  else (List.range n).map (fun i => "predictions_" ++ toString i)

/-- The observable outcome of one `_predict_pandas` call: the
`feature_names` kwarg passed to `xgboost.DMatrix` (if any), the array the
`DMatrix` is built from, the raw prediction, and the returned DataFrame
columns. -/
structure PredictResult where
  feature_names : Option (List ColId)
  dmatrix_data : List (List Int)
  output : NDArray
  columns : List String
deriving DecidableEq, Repr

/-- Embedding of `XGBoostPredictor._predict_pandas`
(`src/python/ray/train/xgboost/xgboost_predictor.py`, lines 111-142).
The booster is abstracted as the function `predict` from the DMatrix data to
the prediction ndarray; the `Except` layer models the Python exceptions
raised before `xgboost.DMatrix` is constructed. -/
def predictPandas (predict : List (List Int) → NDArray) (data : DataFrame)
    (feature_columns : Option (List ColId)) : Except String PredictResult := do
  let dn ← featuresToNumpy data feature_columns
  let out := predict dn.1
  return { feature_names := truthyNames dn.2
         , dmatrix_data := dn.1
         , output := out
         , columns := predictionColumns out.ncols }

/-- The feature columns selected by `_predict_pandas` outside the
tensor-column case: the given non-empty `feature_columns`, or all columns of
the data when none (or an empty list) is given. -/
def selectedFeatureColumns (data : DataFrame) (fc : Option (List ColId)) : List ColId :=
  if listTruthy fc then fc.getD [] else data.columns

/-! ## Model of the `ray.train` parts exercised by `test_gpu.py`

The Trainer, the `train.torch` utilities and the result aggregation are not
part of this fragment (only their GPU test-suite is); they are modelled from
the specification below. -/

/-- A torch tensor as far as device placement is concerned: only the device
flag `is_cuda` is modelled. -/
structure Tensor where
  is_cuda : Bool
deriving DecidableEq, Repr

/-- A checkpoint or result payload: a tree of torch tensors (model parameters,
state-dict values, nested dict/list containers). -/
inductive TorchObj where
  | tensor (t : Tensor)
  | node (children : List TorchObj)

mutual

/-- Modelled from the spec: the "checkpoint/result aggregation protocol" that
"collects checkpoints/metrics back to a driver process" (its implementation,
the session and checkpoint processing of `ray.train`, is missing from this
fragment): before a worker payload is handed to the driver, `Tensor.cpu()` is
applied to every torch tensor reachable in it, as asserted by
`test_torch_auto_gpu_to_cpu`. -/
def moveToCpu : TorchObj → TorchObj
  | TorchObj.tensor _ => TorchObj.tensor ⟨false⟩
  | TorchObj.node cs => TorchObj.node (moveToCpuList cs)

/-- Pointwise `moveToCpu` on a list of payloads. -/
def moveToCpuList : List TorchObj → List TorchObj
  | [] => []
  | c :: cs => moveToCpu c :: moveToCpuList cs

end

mutual

/-- Every tensor reachable in the payload satisfies `not tensor.is_cuda`. -/
def allCpu : TorchObj → Bool
  | TorchObj.tensor t => !t.is_cuda
  | TorchObj.node cs => allCpuList cs

/-- Pointwise `allCpu` on a list of payloads. -/
def allCpuList : List TorchObj → Bool
  | [] => true
  | c :: cs => allCpu c && allCpuList cs

end

/-- What one worker hands back in one reporting round: the result given to
`train.report` and the checkpoint given to `train.save_checkpoint`. -/
structure WorkerPayload where
  result : TorchObj
  checkpoint : TorchObj

/-- The view the driver has of a round: the per-worker results delivered to
the callbacks and `trainer.latest_checkpoint`. -/
structure DriverView where
  callbackResults : List TorchObj
  latest_checkpoint : Option TorchObj

/-- Modelled from the spec: the driver "collects checkpoints/metrics back to a
driver process"; every collected payload has passed `moveToCpu` on its way to
the driver, independently of which devices the driver itself can see. -/
def collectToDriver (payloads : List WorkerPayload) : DriverView :=
  { callbackResults := payloads.map (fun p => moveToCpu p.result)
  , latest_checkpoint := (payloads.getLast?).map (fun p => moveToCpu p.checkpoint) }

/-- Modelled from the spec: "manages device placement (CPU/GPU)" — the ray
resource scheduler is missing from this fragment. Every GPU of the node has
capacity `1`; `firstFit req caps` places one worker on the lowest-indexed GPU
with at least `req` fractional GPU resource remaining. -/
def firstFit (req : ℚ) : List ℚ → Option (Nat × List ℚ)
  | [] => none
  | c :: cs =>
      if req ≤ c then some (0, (c - req) :: cs)
      else
        match firstFit req cs with
        | some (i, rest) => some (i + 1, c :: rest)
        | none => none

/-- Placement of workers in rank order, each taking `req` GPUs from the
remaining capacities. -/
def placeWorkers (req : ℚ) : Nat → List ℚ → Option (List Nat)
  | 0, _ => some []
  | n + 1, caps =>
      match firstFit req caps with
      | some (i, rest) => (placeWorkers req n rest).map (fun js => i :: js)
      | none => none

/-- The GPU device indices of a run with `numWorkers` workers, each requesting
`req` GPUs (the `resources_per_worker` GPU amount), on a node with `numGpus`
GPUs: `train.torch.get_device().index` on worker `i` is the `i`-th entry. -/
def assignDevices (numGpus : Nat) (req : ℚ) (numWorkers : Nat) : Option (List Nat) :=
  placeWorkers req numWorkers (List.replicate numGpus 1)

/-- A torch model: its parameters and whether it has been wrapped in
`DistributedDataParallel`. -/
structure TorchModel where
  params : List Tensor
  is_ddp : Bool
deriving DecidableEq, Repr

/-- Modelled from the spec: "wraps user models ... for distributed execution"
with "device-aware wrapping" (`train.torch.prepare_model` is missing from
this fragment): with `use_gpu` every parameter is moved to the CUDA device of
the worker, and the model is wrapped in `DistributedDataParallel`. -/
def prepare_model (use_gpu : Bool) (m : TorchModel) : TorchModel :=
  { params := if use_gpu then m.params.map (fun _ => ⟨true⟩) else m.params
  , is_ddp := true }

/-- A torch sampler: only whether it is a `DistributedSampler` is modelled. -/
inductive Sampler where
  | sequential
  | distributed
deriving DecidableEq, Repr

/-- A batch yielded by a torch `DataLoader`: the dataset `__getitem__` returns
either a tuple/list of tensors or a dict of tensors. -/
inductive Batch where
  | tup (xs : List Tensor)
  | dict (entries : List (String × Tensor))
deriving DecidableEq, Repr

/-- A torch `DataLoader`: its sampler and the batches it yields. -/
structure TorchDataLoader where
  sampler : Sampler
  batches : List Batch
deriving DecidableEq, Repr

/-- Movement of every tensor of a batch to the device of the worker. -/
def batchToDevice (cuda : Bool) : Batch → Batch
  | Batch.tup xs => Batch.tup (xs.map (fun _ => ⟨cuda⟩))
  | Batch.dict es => Batch.dict (es.map (fun e => (e.1, ⟨cuda⟩)))

/-- Modelled from the spec: "wraps user ... data-loaders for distributed
execution" with "device-aware wrapping of ... data loaders"
(`train.torch.prepare_data_loader` is missing from this fragment): the
wrapped loader uses a `DistributedSampler` and yields every batch on the
device of the worker. -/
def prepare_data_loader (use_gpu : Bool) (dl : TorchDataLoader) : TorchDataLoader :=
  { sampler := Sampler.distributed
  , batches := dl.batches.map (batchToDevice use_gpu) }

/-- Every tensor of the batch is CUDA-resident. -/
def batchAllCuda : Batch → Bool
  | Batch.tup xs => xs.all Tensor.is_cuda
  | Batch.dict es => es.all (fun e => e.2.is_cuda)

/-- Modelled from the spec: "the distributed Trainer's worker-group lifecycle
(start/run/shutdown)" — the `ray.train.Trainer` class is missing from this
fragment. A trainer holds its configured worker count and, once started, the
ranks of its live worker group. -/
structure Trainer where
  num_workers : Nat
  worker_group : Option (List Nat)
deriving DecidableEq, Repr

/-- A freshly constructed `Trainer(num_workers=n)`: no worker group yet. -/
def Trainer.create (n : Nat) : Trainer := ⟨n, none⟩

/-- Method `trainer.start()`: spin up one worker per configured slot, ranks
`0 .. n-1`. -/
def Trainer.start (t : Trainer) : Trainer :=
  { t with worker_group := some (List.range t.num_workers) }

/-- Method `trainer.run(train_fn)`: execute the user-supplied training
function on every live worker and collect the per-worker returns in rank
order; there is no worker group to run on when the trainer has not been
started. -/
def Trainer.run {α : Type} (t : Trainer) (f : Nat → α) : Option (List α) :=
  t.worker_group.map (fun ws => ws.map f)

/-- Method `trainer.shutdown()`: tear the worker group down. -/
def Trainer.shutdown (t : Trainer) : Trainer := { t with worker_group := none }

/-- The constant `ray.train.constants.TRAINING_ITERATION`. -/
def TRAINING_ITERATION : String := "_training_iteration"

/-- A training loop that reports a metrics dict once per epoch (as the mnist
and horovod example loops of the tests do): the reports of `epochs` epochs,
in order. -/
def epochReports (rep : Nat → List (String × Nat)) (epochs : Nat) :
    List (List (String × Nat)) :=
  (List.range epochs).map rep

/-- Modelled from the spec: the driver side that "collects
checkpoints/metrics back to a driver process" (the `Trainer.fit` result
aggregation is missing from this fragment): the driver counts the reports,
and the metrics of the returned result are the metrics of the last report
together with the report count under `TRAINING_ITERATION` (the
driver-maintained key takes precedence). -/
def fitMetrics (reports : List (List (String × Nat))) : List (String × Nat) :=
  (TRAINING_ITERATION, reports.length) :: (reports.getLast?).getD []

/-! ## Helper lemmas -/

/-- Success of a bind of `Except` programs, split into its two stages. -/
theorem except_bind_ok_iff {ε α β : Type} (x : Except ε α) (f : α → Except ε β) (b : β) :
    x >>= f = Except.ok b ↔ ∃ a, x = Except.ok a ∧ f a = Except.ok b := by
  cases x <;> simp [Bind.bind, Except.bind]

/-- On success, the local variable `feature_names` of `_predict_pandas` is
`None` in the tensor-column case and otherwise holds the selected feature
columns exactly when those are all strings. -/
theorem featuresToNumpy_names (data : DataFrame) (fc : Option (List ColId))
    (m : List (List Int)) (fn : Option (List ColId))
    (h : featuresToNumpy data fc = Except.ok (m, fn)) :
    fn = if data.contains TENSOR_COLUMN_NAME then none
         else if allStrings (selectedFeatureColumns data fc) then some (selectedFeatureColumns data fc)
         else none := by
  unfold featuresToNumpy at h
  split at h
  case isTrue hc =>
    simp only [hc, if_true]
    simp only [except_bind_ok_iff] at h
    obtain ⟨col, hcol, rows, hrows, h⟩ := h
    split at h
    · simp only [except_bind_ok_iff, pure, Except.pure, Except.ok.injEq, Prod.mk.injEq] at h
      obtain ⟨rows2, hrows2, hm, hfn⟩ := h
      exact hfn.symm
    · simp only [pure, Except.pure, Except.ok.injEq, Prod.mk.injEq] at h
      exact h.2.symm
  case isFalse hc =>
    have hc2 : data.contains TENSOR_COLUMN_NAME = false := by
      cases hcc : data.contains TENSOR_COLUMN_NAME
      · rfl
      · exact absurd hcc hc
    simp only [hc2, if_false, Bool.false_eq_true]
    split at h
    case isTrue ht =>
      simp only [selectedFeatureColumns, ht, if_true]
      simp only [except_bind_ok_iff, pure, Except.pure, Except.ok.injEq, Prod.mk.injEq] at h
      obtain ⟨sel, hsel, mm, hmm, hm, hfn⟩ := h
      exact hfn.symm
    case isFalse ht =>
      have ht2 : listTruthy fc = false := by
        cases htt : listTruthy fc
        · rfl
        · exact absurd htt ht
      simp only [selectedFeatureColumns, ht2, if_false, Bool.false_eq_true]
      simp only [except_bind_ok_iff, pure, Except.pure, Except.ok.injEq, Prod.mk.injEq] at h
      obtain ⟨mm, hmm, hm, hfn⟩ := h
      exact hfn.symm

/-- A `_predict_pandas` call succeeds exactly when the data conversion does,
and then its outcome is determined by the converted data and the
`feature_names` variable. -/
theorem predictPandas_ok_iff (predict : List (List Int) → NDArray) (data : DataFrame)
    (fc : Option (List ColId)) (r : PredictResult) :
    predictPandas predict data fc = Except.ok r ↔
      ∃ m fn, featuresToNumpy data fc = Except.ok (m, fn) ∧
        r = { feature_names := truthyNames fn
            , dmatrix_data := m
            , output := predict m
            , columns := predictionColumns (predict m).ncols } := by
  unfold predictPandas
  cases hd : featuresToNumpy data fc with
  | error e => simp [Bind.bind, Except.bind]
  | ok dn =>
      cases dn with
      | mk m0 fn0 =>
        simp only [Bind.bind, Except.bind, pure, Except.pure, Except.ok.injEq, Prod.mk.injEq]
        constructor
        · intro h
          exact ⟨m0, fn0, ⟨rfl, rfl⟩, h.symm⟩
        · rintro ⟨m, fn, ⟨hm, hfn⟩, hr⟩
          subst hm; subst hfn
          exact hr.symm

mutual

/-- After `moveToCpu`, every reachable tensor is CPU-resident. -/
theorem allCpu_moveToCpu : ∀ o : TorchObj, allCpu (moveToCpu o) = true
  | TorchObj.tensor t => by simp [moveToCpu, allCpu]
  | TorchObj.node cs => by
      simp only [moveToCpu, allCpu]
      exact allCpuList_moveToCpuList cs

/-- After `moveToCpuList`, every reachable tensor is CPU-resident. -/
theorem allCpuList_moveToCpuList : ∀ cs : List TorchObj, allCpuList (moveToCpuList cs) = true
  | [] => by simp [moveToCpuList, allCpuList]
  | c :: cs => by
      simp [moveToCpuList, allCpuList, allCpu_moveToCpu c, allCpuList_moveToCpuList cs]

end

/-- A batch moved to the CUDA device holds only CUDA tensors. -/
theorem batchAllCuda_batchToDevice (b : Batch) :
    batchAllCuda (batchToDevice true b) = true := by
  cases b <;> simp [batchToDevice, batchAllCuda, List.all_eq_true]

/-! ## The claims -/

/-- C1: whenever workers save checkpoints or report results containing
GPU-resident torch tensors, everything collected on the driver — the results
delivered to the callbacks as well as `trainer.latest_checkpoint` — contains
only CPU-resident tensors (`not tensor.is_cuda` for every reachable tensor),
regardless of the devices the workers used and of what the driver can see. -/
theorem collected_results_are_cpu (payloads : List WorkerPayload) :
    ((collectToDriver payloads).latest_checkpoint.all allCpu = true) ∧
    ((collectToDriver payloads).callbackResults.all allCpu = true) := by
  constructor
  · cases h : payloads.getLast? with
    | none => simp [collectToDriver, h]
    | some p => simp [collectToDriver, h, Option.all, allCpu_moveToCpu]
  · simp [collectToDriver, List.all_eq_true, allCpu_moveToCpu]

/-- C2: on a node with 2 GPUs and 2 workers, the device index each worker
sees is determined by the `resources_per_worker` GPU amount: half a GPU per
worker packs both workers onto device 0 (the run returns `[0, 0]`), one GPU
per worker spreads them over devices 0 and 1 (the run returns `[0, 1]`). -/
theorem torch_get_device_indices :
    assignDevices 2 (1/2 : ℚ) 2 = some [0, 0] ∧ assignDevices 2 1 2 = some [0, 1] := by
  constructor <;> norm_num [assignDevices, placeWorkers, firstFit]

/-- C3: every torch model passed to `train.torch.prepare_model` under
`use_gpu=True` comes back wrapped in `DistributedDataParallel` with all of
its parameters CUDA-resident (in particular
`next(model.parameters()).is_cuda`). -/
theorem prepare_model_ddp_cuda (m : TorchModel) :
    (prepare_model true m).is_ddp = true ∧
    (prepare_model true m).params.all Tensor.is_cuda = true := by
  refine ⟨rfl, ?_⟩
  simp [prepare_model, List.all_eq_true]

/-- C4: every torch `DataLoader` passed to `train.torch.prepare_data_loader`
in a GPU training function comes back with a `DistributedSampler`, and every
tensor of every batch it yields is on the CUDA device of the worker, both for
tuple/list batches and for dict batches. -/
theorem prepare_data_loader_distributed_cuda (dl : TorchDataLoader) :
    (prepare_data_loader true dl).sampler = Sampler.distributed ∧
    (prepare_data_loader true dl).batches.all batchAllCuda = true := by
  refine ⟨rfl, ?_⟩
  simp only [prepare_data_loader, List.all_eq_true]
  intro b hb
  obtain ⟨c, hc, rfl⟩ := List.mem_map.1 hb
  exact batchAllCuda_batchToDevice c

/-- C5: once a Trainer with `num_workers = n` has been started, `run`
executes the training function on each of the `n` workers and returns the
list of exactly `n` results in worker order; `shutdown` tears the worker
group down (after which `run` has no worker group), and the started state can
be reached again by a new `start`, so start/run/shutdown sequences may be
repeated. -/
theorem trainer_lifecycle {α : Type} (n : Nat) (f : Nat → α) :
    (((Trainer.create n).start).run f = some ((List.range n).map f)) ∧
    (((((Trainer.create n).start).run f).getD []).length = n) ∧
    ((((Trainer.create n).start).shutdown).run f = none) ∧
    (((((Trainer.create n).start).shutdown).start).run f = some ((List.range n).map f)) := by
  refine ⟨rfl, ?_, rfl, rfl⟩
  simp [Trainer.create, Trainer.start, Trainer.run]

/-- C6: for a completed `trainer.fit()` whose training loop reported once per
epoch, the metrics of the returned result carry the reported metrics together
with a training-iteration count equal to the number of epochs:
`results.metrics[TRAINING_ITERATION] == epochs`; this covers the
TensorflowTrainer and TorchTrainer runs as well as the HorovodTrainer run,
whose example loops all report once per epoch. -/
theorem fit_training_iteration_count (rep : Nat → List (String × Nat)) (epochs : Nat) :
    (fitMetrics (epochReports rep epochs)).lookup TRAINING_ITERATION = some epochs := by
  simp [fitMetrics, epochReports, List.lookup]

/-- C7: the DataFrame returned by `_predict_pandas` has its columns named
exactly `["predictions"]` when the prediction of the model has a single
output column, and `["predictions_0", ..., "predictions_(n-1)"]` in index
order when it has `n > 1` output columns. -/
theorem predict_pandas_output_columns (predict : List (List Int) → NDArray)
    (data : DataFrame) (fc : Option (List ColId)) (r : PredictResult)
    (hok : predictPandas predict data fc = Except.ok r) :
    (r.output.ncols = 1 → r.columns = ["predictions"]) ∧
    (1 < r.output.ncols →
      r.columns = (List.range r.output.ncols).map (fun i => "predictions_" ++ toString i)) := by
  obtain ⟨m, fn, hmn, hr⟩ := (predictPandas_ok_iff predict data fc r).1 hok
  subst hr
  constructor
  · intro h1
    have h1a : (predict m).ncols = 1 := h1
    show predictionColumns (predict m).ncols = ["predictions"]
    simp [predictionColumns, h1a]
  · intro h2
    have h2a : 1 < (predict m).ncols := h2
    have hne : (predict m).ncols ≠ 1 := by omega
    show predictionColumns (predict m).ncols =
      (List.range (predict m).ncols).map (fun i => "predictions_" ++ toString i)
    simp [predictionColumns, hne]

/-- C7 witness: a concrete single-output call, named `["predictions"]`. -/
theorem predict_pandas_output_columns_witness :
    (predictPandas (fun _ => NDArray.mk 1 [[3]])
        (DataFrame.mk [(ColId.str "a", [Cell.scalar 1])]) none =
      Except.ok { feature_names := some [ColId.str "a"], dmatrix_data := [[1]],
                  output := NDArray.mk 1 [[3]], columns := ["predictions"] }) ∧
    ({ feature_names := some [ColId.str "a"], dmatrix_data := [[1]],
       output := NDArray.mk 1 [[3]], columns := ["predictions"] } : PredictResult).columns
      = ["predictions"] :=
  ⟨rfl,
    (predict_pandas_output_columns (fun _ => NDArray.mk 1 [[3]])
      (DataFrame.mk [(ColId.str "a", [Cell.scalar 1])]) none
      { feature_names := some [ColId.str "a"], dmatrix_data := [[1]],
        output := NDArray.mk 1 [[3]], columns := ["predictions"] } rfl).1 rfl⟩

/-- C8 counterexample: on a DataFrame with no columns and no given
`feature_columns`, the tensor column is absent and the selected feature
columns (all columns, i.e. the empty list) are vacuously all strings, yet the
call reaches `xgboost.DMatrix` without passing `feature_names`, because the
empty `feature_names` list is falsy — refuting the claimed equivalence as
stated. -/
theorem predict_pandas_feature_names_counterexample :
    predictPandas (fun _ => NDArray.mk 1 []) (DataFrame.mk []) none =
      Except.ok { feature_names := none, dmatrix_data := [],
                  output := NDArray.mk 1 [], columns := ["predictions"] } ∧
    (DataFrame.mk []).contains TENSOR_COLUMN_NAME = false ∧
    allStrings (selectedFeatureColumns (DataFrame.mk []) none) = true :=
  ⟨rfl, rfl, rfl⟩

/-- C8 (amended): in every `_predict_pandas` call that reaches
`xgboost.DMatrix`, the `feature_names` keyword is passed if and only if the
tensor column is absent from the data and the selected feature columns (the
given non-empty `feature_columns`, or all columns of the data when none are
given) form a non-empty list of strings; in particular, when the tensor
column is present, `feature_names` is never passed even if `feature_columns`
is supplied. -/
theorem predict_pandas_feature_names_iff (predict : List (List Int) → NDArray)
    (data : DataFrame) (fc : Option (List ColId)) (r : PredictResult)
    (hok : predictPandas predict data fc = Except.ok r) :
    r.feature_names.isSome = true ↔
      (data.contains TENSOR_COLUMN_NAME = false ∧
       selectedFeatureColumns data fc ≠ [] ∧
       allStrings (selectedFeatureColumns data fc) = true) := by
  obtain ⟨m, fn, hmn, hr⟩ := (predictPandas_ok_iff predict data fc r).1 hok
  subst hr
  have hfn := featuresToNumpy_names data fc m fn hmn
  subst hfn
  cases hc : data.contains TENSOR_COLUMN_NAME
  · cases hs : allStrings (selectedFeatureColumns data fc)
    · simp [truthyNames, hc, hs]
    · cases hsel : selectedFeatureColumns data fc with
      | nil => simp [truthyNames, hc, hs, hsel]
      | cons a l => simp [truthyNames, hc, hs, hsel]
  · simp [truthyNames, hc]

/-- C8 witness: a concrete call on one string column with no
`feature_columns`, where `feature_names` is passed and the equivalence
holds. -/
theorem predict_pandas_feature_names_iff_witness :
    (predictPandas (fun _ => NDArray.mk 1 [[3]])
        (DataFrame.mk [(ColId.str "b", [Cell.scalar 2])]) none =
      Except.ok { feature_names := some [ColId.str "b"], dmatrix_data := [[2]],
                  output := NDArray.mk 1 [[3]], columns := ["predictions"] }) ∧
    (({ feature_names := some [ColId.str "b"], dmatrix_data := [[2]],
        output := NDArray.mk 1 [[3]],
        columns := ["predictions"] } : PredictResult).feature_names.isSome = true ↔
      ((DataFrame.mk [(ColId.str "b", [Cell.scalar 2])]).contains TENSOR_COLUMN_NAME = false ∧
       selectedFeatureColumns (DataFrame.mk [(ColId.str "b", [Cell.scalar 2])]) none ≠ [] ∧
       allStrings (selectedFeatureColumns (DataFrame.mk [(ColId.str "b", [Cell.scalar 2])]) none) = true)) :=
  ⟨rfl,
    predict_pandas_feature_names_iff (fun _ => NDArray.mk 1 [[3]])
      (DataFrame.mk [(ColId.str "b", [Cell.scalar 2])]) none
      { feature_names := some [ColId.str "b"], dmatrix_data := [[2]],
        output := NDArray.mk 1 [[3]], columns := ["predictions"] } rfl⟩

/-- C9: calling `_predict_pandas` with the empty `feature_columns` list gives
exactly the same result as calling it with `feature_columns=None` — the empty
list is falsy, so all columns of the data are used as features. -/
theorem predict_pandas_empty_feature_columns (predict : List (List Int) → NDArray)
    (data : DataFrame) :
    predictPandas predict data (some []) = predictPandas predict data none := rfl

end RayTrain
